import Mathlib

/-!
Shallow embedding of the AURA moderation ledger and telemetry engine
(`bot_logic.py`, `admin_dashboard.py`, `app.py`) together with proofs of the
behavioural properties stated about it.

Modelling conventions:
- Instants (ISO timestamps in the code) are abstract `Nat` ticks; the code only
  appends them and compares them against a window cutoff.
- Calendar dates are a `Date` structure (year, month, day); `datetime.now().date()`
  is passed in explicitly as the `today` argument.
- Platform calls that may raise (`member.ban`, `member.kick`, `message.delete`,
  `add_roles`) are modelled by an explicit boolean telling whether the platform
  accepted the call; the handler's `try/except` branches are translated faithfully
  on both outcomes.
- `save_json` catches every exception and only prints; this is modelled by the
  `SaveResult` outcome (`saved` or `persistenceErrorLogged`), never by failure of
  the in-memory state transition.
- Python string `.lower()` is `lowerStr` (per-character ASCII lowercase), and the
  `in` substring test is `strContains`.
-/

namespace Aura

/-- Per-character lowercase of a string, modelling Python `str.lower()` on the
ASCII data handled by the bot. -/
def lowerStr (s : String) : String := ⟨s.toList.map Char.toLower⟩

/-- Whether the first character list is a leading block of the second. -/
def charsHasPre : List Char → List Char → Bool
  | [], _ => true
  | _ :: _, [] => false
  | c :: cs, d :: ds => c == d && charsHasPre cs ds

/-- Whether `needle` occurs contiguously inside the second list. -/
def charsHasSub (needle : List Char) : List Char → Bool
  | [] => charsHasPre needle []
  | d :: ds => charsHasPre needle (d :: ds) || charsHasSub needle ds

/-- Python's `needle in hay` substring test. -/
def strContains (hay needle : String) : Bool :=
  charsHasSub needle.toList hay.toList

/-- A calendar date, as produced by `datetime.now().date()`. -/
structure Date where
  year : Nat
  month : Nat
  day : Nat
deriving DecidableEq

/-- The `monthly_summary` dictionary of `SERVER_METRICS` (bot_logic.py lines
101-111 for the default shape; `member_count_at_action` is added at line 141 and
is absent, modelled `none`, until then). -/
structure MonthlySummary where
  total_mutes : Nat
  total_bans : Nat
  total_kicks : Nat
  last_reset : Date
  member_count_at_action : Option Nat
deriving DecidableEq

/-- One entry of `MOD_LOGS['logs']` as written by `update_log_and_metrics`
(bot_logic.py lines 125-131). Entries written by the engine never carry a
`target_username` key, hence `none`; the dashboard reads that key with a
default of the empty string. -/
structure LogEntry where
  timestamp : Nat
  action : String
  target_id : String
  moderator_id : String
  reason : String
  target_username : Option String
deriving DecidableEq

/-- The in-memory `SERVER_METRICS` dictionary (bot_logic.py lines 101-111).
`messages_by_channel` keeps dictionary insertion order as an association list. -/
structure ServerMetrics where
  members_joined : List Nat
  members_left : List Nat
  messages_by_channel : List (Nat × Nat)
  monthly_summary : MonthlySummary
deriving DecidableEq

/-- The shared mutable state of the engine: `MOD_LOGS['logs']` plus
`SERVER_METRICS`. -/
structure EngineState where
  mod_logs : List LogEntry
  server_metrics : ServerMetrics
deriving DecidableEq

/-- The data given to one `update_log_and_metrics` call. -/
structure RecordInput where
  now : Nat
  action : String
  target_id : String
  moderator_id : String
  reason : String
deriving DecidableEq

/-- The action kinds that update a monthly counter (bot_logic.py line 137). -/
def punitive_actions : List String := ["MUTE", "BAN", "KICK"]

/-- The fresh `monthly_summary` installed by the monthly reset
(bot_logic.py lines 156-161). The reset replaces the whole dictionary, so a
previously present `member_count_at_action` key is dropped. -/
def resetSummary (today : Date) : MonthlySummary :=
  { total_mutes := 0, total_bans := 0, total_kicks := 0,
    last_reset := today, member_count_at_action := none }

/-- The guarded increment `if key in monthly_summary: monthly_summary[key] += 1`
(bot_logic.py lines 163-164), for the keys the code can pass. A key absent from
the dictionary is a no-op. -/
def incKey (s : MonthlySummary) (key : String) : MonthlySummary :=
  if key = "total_mutes" then { s with total_mutes := s.total_mutes + 1 }
  else if key = "total_bans" then { s with total_bans := s.total_bans + 1 }
  else if key = "total_kicks" then { s with total_kicks := s.total_kicks + 1 }
  else if key = "member_count_at_action" then
    match s.member_count_at_action with
    | some v => { s with member_count_at_action := some (v + 1) }
    | none => s
  else s

/-- `update_monthly_metric` (bot_logic.py lines 145-165): reset the summary when
the current month number differs from `last_reset`'s month number, then apply
the guarded increment. -/
def update_monthly_metric (today : Date) (key : String) (s : MonthlySummary) :
    MonthlySummary :=
  incKey (if today.month = s.last_reset.month then s else resetSummary today) key

/-- The log entry built at bot_logic.py lines 125-131. -/
def mkLogEntry (now : Nat) (action target_id moderator_id reason : String) : LogEntry :=
  { timestamp := now, action := action, target_id := target_id,
    moderator_id := moderator_id, reason := reason, target_username := none }

/-- `mkLogEntry` applied to a bundled `RecordInput`. -/
def recordEntry (inp : RecordInput) : LogEntry :=
  mkLogEntry inp.now inp.action inp.target_id inp.moderator_id inp.reason

/-- The metrics part of `update_log_and_metrics` (bot_logic.py lines 136-141):
update the monthly counter for punitive actions, then store the guild member
count when a (non-empty, Python truthiness) member list was passed. -/
def monthly_update_of (today : Date) (action : String) (guild_members : Option Nat)
    (ms : MonthlySummary) : MonthlySummary :=
  let ms1 := if action ∈ punitive_actions then
      update_monthly_metric today ("total_" ++ lowerStr action ++ "s") ms
    else ms
  match guild_members with
  | some n => if n = 0 then ms1 else { ms1 with member_count_at_action := some n }
  | none => ms1

/-- `update_log_and_metrics` (bot_logic.py lines 121-142) as a state transition:
insert the new entry at the head of the ledger and update the metrics. The two
`save_json` calls do not affect the in-memory state (see `save_json`). -/
def update_log_and_metrics (today : Date) (now : Nat)
    (action target_id moderator_id reason : String) (guild_members : Option Nat)
    (st : EngineState) : EngineState :=
  { mod_logs := mkLogEntry now action target_id moderator_id reason :: st.mod_logs,
    server_metrics := { st.server_metrics with
      monthly_summary :=
        monthly_update_of today action guild_members st.server_metrics.monthly_summary } }

/-- How one `save_json` call ends (bot_logic.py lines 84-90): the write either
succeeds, or the exception is caught and reported to operator output — the
PersistenceError outcome. The function never raises to its caller. -/
inductive SaveResult where
  | saved
  | persistenceErrorLogged
deriving DecidableEq

/-- `save_json` (bot_logic.py lines 84-90), parameterised by whether the Durable
Store write succeeds. -/
def save_json (writeOk : Bool) : SaveResult :=
  if writeOk then SaveResult.saved else SaveResult.persistenceErrorLogged

/-- The ledger-append fragment of `update_log_and_metrics` (bot_logic.py lines
133-134): head insertion into the in-memory ledger together with the outcome of
the Durable Store write. -/
def ledger_append (inp : RecordInput) (writeOk : Bool) (logs : List LogEntry) :
    List LogEntry × SaveResult :=
  (recordEntry inp :: logs, save_json writeOk)

/-- A sequence of `update_log_and_metrics` calls, one per record, in order. -/
def appendAll (today : Date) (xs : List RecordInput) (st : EngineState) : EngineState :=
  xs.foldl
    (fun s inp =>
      update_log_and_metrics today inp.now inp.action inp.target_id inp.moderator_id
        inp.reason none s)
    st

/-- The ban-evasion lookup of `on_member_join` (bot_logic.py line 197). -/
def is_banned (logs : List LogEntry) (memberId : String) : Bool :=
  logs.any (fun log => log.target_id == memberId && log.action == "BAN")

/-- Platform effects a member-join handling can issue. -/
inductive JoinEffect where
  | reBan (memberId : String)
  | alertNotify
  | welcome (memberId : String)
deriving DecidableEq

/-- `on_member_join` (bot_logic.py lines 191-224). `banCallOk` tells whether the
`try` block of the auto-ban (the `member.ban` call and the alert-channel send)
completes; when it raises, the handler prints the error and falls through to the
welcome message and the join-metric append. Returns the issued effects and the
updated metrics. -/
def on_member_join (logs : List LogEntry) (memberId : String) (now : Nat)
    (banCallOk alertChannel welcomeChannel : Bool) (metrics : ServerMetrics) :
    List JoinEffect × ServerMetrics :=
  if is_banned logs memberId then
    if banCallOk then
      (JoinEffect.reBan memberId ::
        (if alertChannel then [JoinEffect.alertNotify] else []), metrics)
    else
      ((if welcomeChannel then [JoinEffect.welcome memberId] else []),
        { metrics with members_joined := metrics.members_joined ++ [now] })
  else
    ((if welcomeChannel then [JoinEffect.welcome memberId] else []),
      { metrics with members_joined := metrics.members_joined ++ [now] })

/-- Redelivery of the same member-join event: each delivery carries its own
instant and channel availability; the auto-ban platform call succeeds each time. -/
def join_deliveries (logs : List LogEntry) (memberId : String)
    (ds : List (Nat × Bool × Bool)) (metrics : ServerMetrics) : ServerMetrics :=
  ds.foldl (fun m d => (on_member_join logs memberId d.1 true d.2.1 d.2.2 m).2) metrics

/-- Effects an `on_message` handling can issue, in order. -/
inductive MsgEffect where
  | deleteMessage
  | sendFilterNotice
  | waitSeconds (n : Nat)
  | deleteNotice
  | dispatchCommands
deriving DecidableEq

/-- The fields of an incoming message the handler inspects. -/
structure MessageEvent where
  authorIsBot : Bool
  content : String
  authorId : String
  channelId : Nat
  authorCanManageMessages : Bool
deriving DecidableEq

/-- The configured denylist of substrings (bot_logic.py line 253). -/
def suspicious_links : List String := ["bit.ly", "tinyurl.com", ".xyz", ".cc", "discord.gg"]

/-- The content-filter test of bot_logic.py line 254. -/
def matches_denylist (content : String) : Bool :=
  suspicious_links.any (fun l => strContains (lowerStr content) l)

/-- One `CHANNEL_ACTIVITY[channel.id] += 1` on a `defaultdict(int)`: bump the
existing entry, or add the key at the end in insertion order. -/
def bumpChannel : List (Nat × Nat) → Nat → List (Nat × Nat)
  | [], k => [(k, 1)]
  | (a, v) :: rest, k =>
    if a = k then (a, v + 1) :: rest else (a, v) :: bumpChannel rest k

/-- `on_message` (bot_logic.py lines 236-267). `deletePermitted` tells whether
the platform allows `message.delete()`; on `Forbidden` the handler passes and
falls through to `bot.process_commands`. Returns the updated chatter set,
channel activity, and issued effects. -/
def on_message (deletePermitted : Bool) (msg : MessageEvent)
    (chatters : List String) (activity : List (Nat × Nat)) :
    List String × List (Nat × Nat) × List MsgEffect :=
  if msg.authorIsBot || msg.content == "" then (chatters, activity, [])
  else
    let chatters1 := if chatters.contains msg.authorId then chatters
      else msg.authorId :: chatters
    let activity1 := bumpChannel activity msg.channelId
    if matches_denylist msg.content && !msg.authorCanManageMessages then
      if deletePermitted then
        (chatters1, activity1,
          [MsgEffect.deleteMessage, MsgEffect.sendFilterNotice, MsgEffect.waitSeconds 5,
            MsgEffect.deleteNotice])
      else
        (chatters1, activity1, [MsgEffect.dispatchCommands])
    else (chatters1, activity1, [MsgEffect.dispatchCommands])

/-- `kick_command` (bot_logic.py lines 382-401). `platformOk` is whether
`member.kick` succeeds; on failure the handler reports the error to the invoking
actor and nothing else happens. Returns the new state and whether an error was
surfaced to the actor. -/
def kick_command (today : Date) (now : Nat) (platformOk : Bool)
    (memberId actorId reason : String) (guildMembers : Nat) (st : EngineState) :
    EngineState × Bool :=
  if platformOk then
    (update_log_and_metrics today now "KICK" memberId actorId reason (some guildMembers) st,
      false)
  else (st, true)

/-- `ban_command` (bot_logic.py lines 404-424), analogous to `kick_command`. -/
def ban_command (today : Date) (now : Nat) (platformOk : Bool)
    (memberId actorId reason : String) (guildMembers : Nat) (st : EngineState) :
    EngineState × Bool :=
  if platformOk then
    (update_log_and_metrics today now "BAN" memberId actorId reason (some guildMembers) st,
      false)
  else (st, true)

/-- `mute_command` (bot_logic.py lines 427-452): if the mute role is missing an
error is reported and nothing happens; otherwise as `kick_command` with
`add_roles` as the platform effect. -/
def mute_command (today : Date) (now : Nat) (mutedRoleExists platformOk : Bool)
    (memberId actorId reason : String) (guildMembers : Nat) (st : EngineState) :
    EngineState × Bool :=
  if !mutedRoleExists then (st, true)
  else if platformOk then
    (update_log_and_metrics today now "MUTE" memberId actorId reason (some guildMembers) st,
      false)
  else (st, true)

/-- The `!flag` command (bot_logic.py lines 472-492): records a FLAG entry with
no guild member list. -/
def report_command (today : Date) (now : Nat) (memberId actorId reason : String)
    (st : EngineState) : EngineState :=
  update_log_and_metrics today now "FLAG" memberId actorId reason none st

/-- Python truthiness of an optional environment string: `None` and the empty
string are falsy. -/
def strTruthy : Option String → Bool
  | none => false
  | some s => !(s == "")

/-- Abstraction of `werkzeug.generate_password_hash`: the hashing is collapsed
so that the pair satisfies exactly the contract
`check_password_hash (generate_password_hash p) q = (q == p)`. -/
def generate_password_hash (p : String) : String := p

/-- Abstraction of `werkzeug.check_password_hash`, see `generate_password_hash`. -/
def check_password_hash (h p : String) : Bool := h == p

/-- `ADMIN_PASS_HASHED` computed at startup (admin_dashboard.py line 17):
hash the environment value when it is truthy, else `None`. -/
def admin_pass_hashed : Option String → Option String
  | some s => if s == "" then none else some (generate_password_hash s)
  | none => none

/-- `verify_password` (admin_dashboard.py lines 21-28). -/
def verify_password (adminUser adminPassHashed : Option String)
    (username password : String) : Option String :=
  if strTruthy adminUser && strTruthy adminPassHashed then
    if username == adminUser.getD "" &&
        check_password_hash (adminPassHashed.getD "") password then
      some username
    else none
  else none

/-- Count of the timestamps strictly after the window cutoff
(admin_dashboard.py lines 53-54 and 60-61). -/
def joined_in_window (ts : List Nat) (cutoff : Nat) : Nat :=
  (ts.filter (fun t => cutoff < t)).length

/-- The churn-rate computation of `calculate_kpis` (admin_dashboard.py lines
58-64), over exact rationals. -/
def churn_rate (metrics : ServerMetrics) (cutoff : Nat) : ℚ :=
  let joined_w := joined_in_window metrics.members_joined cutoff
  let left_w := joined_in_window metrics.members_left cutoff
  if joined_w > 0 then (left_w : ℚ) / (joined_w : ℚ) * 100 else 0

/-- One channel with its message count, as assembled by `calculate_kpis`
(admin_dashboard.py lines 67-74) in mapping insertion order. -/
structure ChannelStat where
  id : Nat
  count : Nat
deriving DecidableEq

/-- The comparison used by `sorted(channel_list, key=count, reverse=True)`:
`a` may come before `b` when `a`'s count is at least `b`'s. Python's sort is
stable, which `List.insertionSort` with this relation reproduces. -/
def countGE (a b : ChannelStat) : Prop := b.count ≤ a.count

instance : DecidableRel countGE := fun a b => Nat.decLe b.count a.count

instance : IsTotal ChannelStat countGE := ⟨fun a b => Nat.le_total b.count a.count⟩

instance : IsTrans ChannelStat countGE := ⟨fun _ _ _ h1 h2 => Nat.le_trans h2 h1⟩

/-- `sorted(channel_list, key=lambda x: x['count'], reverse=True)[:n]`
(admin_dashboard.py line 76); the dashboard instantiates `n = 5`. -/
def top_channels (m : List ChannelStat) (n : Nat) : List ChannelStat :=
  (List.insertionSort countGE m).take n

/-- The record predicate of the dashboard search (admin_dashboard.py lines
127-131): case-insensitive substring match on the `target_username` field
(empty when absent) or exact equality with `target_id`. -/
def matches_dashboard (q : String) (log : LogEntry) : Bool :=
  strContains (lowerStr (log.target_username.getD "")) (lowerStr q) ||
    q == log.target_id

/-- The dashboard ledger search (admin_dashboard.py lines 127-131), run when a
non-empty query is posted. -/
def search_ledger (logs : List LogEntry) (q : String) : List LogEntry :=
  logs.filter (fun log =>
    strContains (lowerStr (log.target_username.getD "")) (lowerStr q) ||
      q == log.target_id)

/-- Modelled from the spec's words for comparison (claim C2): case-insensitive
substring match against subject identity, reason text and action kind. -/
def search_ledger_specside (logs : List LogEntry) (q : String) : List LogEntry :=
  logs.filter (fun log =>
    strContains (lowerStr log.target_id) (lowerStr q) ||
      strContains (lowerStr log.reason) (lowerStr q) ||
      strContains (lowerStr log.action) (lowerStr q))

/-- Modelled from the spec's words for comparison (claim C8): descending by
count with ties broken by channel identity ordering. -/
def countIdOrder (a b : ChannelStat) : Prop :=
  b.count < a.count ∨ (a.count = b.count ∧ a.id ≤ b.id)

instance (a b : ChannelStat) : Decidable (countIdOrder a b) := by
  unfold countIdOrder
  exact inferInstance

/-- Modelled from the spec's words for comparison (claim C8): `top_channels`
with the identity-ordering tie-break the claim describes. -/
def top_channels_specside (m : List ChannelStat) (n : Nat) : List ChannelStat :=
  (List.insertionSort countIdOrder m).take n

/-- The claim-side notion for C3: `d` lies in a calendar month strictly before
`today`'s. -/
def priorCalendarMonth (today d : Date) : Prop :=
  d.year < today.year ∨ (d.year = today.year ∧ d.month < today.month)

instance (today d : Date) : Decidable (priorCalendarMonth today d) := by
  unfold priorCalendarMonth
  exact inferInstance

/-- The monthly summary after one `update_log_and_metrics` call with no guild
member list, as inspected by the rollover claims. -/
def monthly_after (today : Date) (now : Nat) (action tid mid r : String)
    (st : EngineState) : MonthlySummary :=
  (update_log_and_metrics today now action tid mid r none st).server_metrics.monthly_summary

/-- A concrete zeroed monthly summary used to instantiate theorems. -/
def msZero : MonthlySummary :=
  { total_mutes := 0, total_bans := 0, total_kicks := 0,
    last_reset := ⟨2025, 1, 1⟩, member_count_at_action := none }

/-- A concrete metrics value used to instantiate theorems. -/
def mEx : ServerMetrics :=
  { members_joined := [], members_left := [], messages_by_channel := [],
    monthly_summary := msZero }

/-- A concrete engine state used to instantiate theorems. -/
def stEx : EngineState := { mod_logs := [], server_metrics := mEx }

/-- A concrete ledger holding one BAN record for subject `"42"`. -/
def logsBanned : List LogEntry :=
  [{ timestamp := 3, action := "BAN", target_id := "42", moderator_id := "1",
     reason := "spam", target_username := none }]

/-- A concrete metrics value with a window for churn instantiation: three joins
and one leave after the cutoff `5`. -/
def mJoinedSome : ServerMetrics :=
  { members_joined := [10, 11, 12], members_left := [10], messages_by_channel := [],
    monthly_summary := msZero }

/-- A concrete monthly summary whose `last_reset` lies in October of the
previous year: a prior calendar month with the same month number as today. -/
def msC3 : MonthlySummary :=
  { total_mutes := 2, total_bans := 1, total_kicks := 3,
    last_reset := ⟨2024, 10, 5⟩, member_count_at_action := none }

/-- A concrete state carrying `msC3`. -/
def stC3 : EngineState :=
  { mod_logs := [],
    server_metrics := { members_joined := [], members_left := [],
                        messages_by_channel := [], monthly_summary := msC3 } }

/-- A concrete ledger record whose reason text contains `"spam"` but whose
`target_username` is absent and whose id differs from the query. -/
def logC2 : LogEntry :=
  { timestamp := 0, action := "BAN", target_id := "42", moderator_id := "1",
    reason := "posted spam", target_username := none }

/-- A concrete denylist-matching message from an unprivileged human author. -/
def msgFiltered : MessageEvent :=
  { authorIsBot := false, content := "check BIT.ly now", authorId := "7", channelId := 3,
    authorCanManageMessages := false }

/-- Head insertion of `update_log_and_metrics`, shared by several proofs. -/
theorem update_mod_logs_eq (today : Date) (now : Nat) (action tid mid r : String)
    (gm : Option Nat) (st : EngineState) :
    (update_log_and_metrics today now action tid mid r gm st).mod_logs =
      mkLogEntry now action tid mid r :: st.mod_logs := rfl

/-- A run of appends prepends the new entries in reverse call order. -/
theorem appendAll_mod_logs (today : Date) (xs : List RecordInput) (st : EngineState) :
    (appendAll today xs st).mod_logs = (xs.map recordEntry).reverse ++ st.mod_logs := by
  induction xs generalizing st with
  | nil => simp [appendAll]
  | cons x xs ih =>
    have hstep : appendAll today (x :: xs) st =
        appendAll today xs
          (update_log_and_metrics today x.now x.action x.target_id x.moderator_id
            x.reason none st) := rfl
    rw [hstep, ih, update_mod_logs_eq]
    simp [recordEntry]

/-- Claim C4 (confirmed): ledger append inserts at the head; any sequence of N
appends yields exactly the N new records most-recent-first with no duplication
or loss; and when the Durable Store write fails the save ends in the logged
PersistenceError outcome while the in-memory insertion still succeeds. -/
theorem ledger_append_head_monotone_best_effort :
    (∀ (today : Date) (now : Nat) (action tid mid r : String) (gm : Option Nat)
        (st : EngineState),
      (update_log_and_metrics today now action tid mid r gm st).mod_logs =
        mkLogEntry now action tid mid r :: st.mod_logs) ∧
    (∀ (today : Date) (xs : List RecordInput) (st : EngineState),
      (appendAll today xs st).mod_logs = (xs.map recordEntry).reverse ++ st.mod_logs) ∧
    (∀ (inp : RecordInput) (logs : List LogEntry),
      ledger_append inp false logs =
        (recordEntry inp :: logs, SaveResult.persistenceErrorLogged)) ∧
    (∀ (inp : RecordInput) (writeOk : Bool) (logs : List LogEntry),
      (ledger_append inp writeOk logs).1 = recordEntry inp :: logs) :=
  ⟨update_mod_logs_eq, appendAll_mod_logs, fun _ _ => rfl, fun _ _ _ => rfl⟩

/-- Claim C5 (confirmed): for kick, ban and mute, when the platform rejects the
effect the command surfaces an error to the invoking actor and leaves the state
(in particular the ledger) unchanged; the ledger entry is written exactly on
the success path. -/
theorem punitive_commands_no_orphan_ledger (today : Date) (now : Nat)
    (mid aid r : String) (gm : Nat) (st : EngineState) (ok roleExists : Bool)
    (hok : ok = false) :
    kick_command today now ok mid aid r gm st = (st, true) ∧
    ban_command today now ok mid aid r gm st = (st, true) ∧
    mute_command today now roleExists ok mid aid r gm st = (st, true) ∧
    (kick_command today now true mid aid r gm st).1.mod_logs =
      mkLogEntry now "KICK" mid aid r :: st.mod_logs ∧
    (ban_command today now true mid aid r gm st).1.mod_logs =
      mkLogEntry now "BAN" mid aid r :: st.mod_logs ∧
    (mute_command today now true true mid aid r gm st).1.mod_logs =
      mkLogEntry now "MUTE" mid aid r :: st.mod_logs := by
  subst hok
  refine ⟨rfl, rfl, ?_, rfl, rfl, rfl⟩
  cases roleExists <;> rfl

/-- Witness of claim C5 at a concrete input. -/
theorem punitive_commands_no_orphan_ledger_instance :
    kick_command ⟨2025, 1, 2⟩ 10 false "7" "8" "r" 5 stEx = (stEx, true) ∧
    ban_command ⟨2025, 1, 2⟩ 10 false "7" "8" "r" 5 stEx = (stEx, true) ∧
    mute_command ⟨2025, 1, 2⟩ 10 false false "7" "8" "r" 5 stEx = (stEx, true) ∧
    (kick_command ⟨2025, 1, 2⟩ 10 true "7" "8" "r" 5 stEx).1.mod_logs =
      mkLogEntry 10 "KICK" "7" "8" "r" :: stEx.mod_logs ∧
    (ban_command ⟨2025, 1, 2⟩ 10 true "7" "8" "r" 5 stEx).1.mod_logs =
      mkLogEntry 10 "BAN" "7" "8" "r" :: stEx.mod_logs ∧
    (mute_command ⟨2025, 1, 2⟩ 10 true true "7" "8" "r" 5 stEx).1.mod_logs =
      mkLogEntry 10 "MUTE" "7" "8" "r" :: stEx.mod_logs :=
  punitive_commands_no_orphan_ledger ⟨2025, 1, 2⟩ 10 "7" "8" "r" 5 stEx false false rfl

/-- Frame lemma: a non-punitive action leaves the punitive counters and the
reset date of the monthly summary unchanged. -/
theorem monthly_update_of_nonpunitive (today : Date) (action : String)
    (gm : Option Nat) (ms : MonthlySummary) (hact : action ∉ punitive_actions) :
    (monthly_update_of today action gm ms).total_mutes = ms.total_mutes ∧
    (monthly_update_of today action gm ms).total_bans = ms.total_bans ∧
    (monthly_update_of today action gm ms).total_kicks = ms.total_kicks ∧
    (monthly_update_of today action gm ms).last_reset = ms.last_reset := by
  cases gm with
  | none =>
    rw [show monthly_update_of today action none ms =
        (if action ∈ punitive_actions then
          update_monthly_metric today ("total_" ++ lowerStr action ++ "s") ms
        else ms) from rfl, if_neg hact]
    exact ⟨rfl, rfl, rfl, rfl⟩
  | some n =>
    rw [show monthly_update_of today action (some n) ms =
        (if n = 0 then
          (if action ∈ punitive_actions then
            update_monthly_metric today ("total_" ++ lowerStr action ++ "s") ms
          else ms)
        else { (if action ∈ punitive_actions then
            update_monthly_metric today ("total_" ++ lowerStr action ++ "s") ms
          else ms) with member_count_at_action := some n }) from rfl, if_neg hact]
    by_cases hn : n = 0
    · rw [if_pos hn]
      exact ⟨rfl, rfl, rfl, rfl⟩
    · rw [if_neg hn]
      exact ⟨rfl, rfl, rfl, rfl⟩

/-- Claim C10 (confirmed): recording a FLAG via the flag command appends a
ledger record and leaves the server metrics untouched; more generally any
non-punitive action leaves the three monthly counters and `last_reset`
unchanged. -/
theorem flag_action_frame_effect (today : Date) (now : Nat)
    (mid aid r action tid mid2 r2 : String) (gm : Option Nat) (st : EngineState)
    (hact : action ∉ punitive_actions) :
    (report_command today now mid aid r st).mod_logs =
      mkLogEntry now "FLAG" mid aid r :: st.mod_logs ∧
    (report_command today now mid aid r st).server_metrics = st.server_metrics ∧
    (update_log_and_metrics today now action tid mid2 r2 gm st).server_metrics.monthly_summary.total_mutes =
      st.server_metrics.monthly_summary.total_mutes ∧
    (update_log_and_metrics today now action tid mid2 r2 gm st).server_metrics.monthly_summary.total_bans =
      st.server_metrics.monthly_summary.total_bans ∧
    (update_log_and_metrics today now action tid mid2 r2 gm st).server_metrics.monthly_summary.total_kicks =
      st.server_metrics.monthly_summary.total_kicks ∧
    (update_log_and_metrics today now action tid mid2 r2 gm st).server_metrics.monthly_summary.last_reset =
      st.server_metrics.monthly_summary.last_reset := by
  have h := monthly_update_of_nonpunitive today action gm
    st.server_metrics.monthly_summary hact
  exact ⟨rfl, rfl, h.1, h.2.1, h.2.2.1, h.2.2.2⟩

/-- Witness of claim C10 at a concrete input. -/
theorem flag_action_frame_effect_instance :
    (report_command ⟨2025, 1, 2⟩ 10 "7" "8" "note" stEx).mod_logs =
      mkLogEntry 10 "FLAG" "7" "8" "note" :: stEx.mod_logs ∧
    (report_command ⟨2025, 1, 2⟩ 10 "7" "8" "note" stEx).server_metrics =
      stEx.server_metrics ∧
    (update_log_and_metrics ⟨2025, 1, 2⟩ 10 "FLAG" "7" "8" "note" (some 9) stEx).server_metrics.monthly_summary.total_mutes =
      stEx.server_metrics.monthly_summary.total_mutes ∧
    (update_log_and_metrics ⟨2025, 1, 2⟩ 10 "FLAG" "7" "8" "note" (some 9) stEx).server_metrics.monthly_summary.total_bans =
      stEx.server_metrics.monthly_summary.total_bans ∧
    (update_log_and_metrics ⟨2025, 1, 2⟩ 10 "FLAG" "7" "8" "note" (some 9) stEx).server_metrics.monthly_summary.total_kicks =
      stEx.server_metrics.monthly_summary.total_kicks ∧
    (update_log_and_metrics ⟨2025, 1, 2⟩ 10 "FLAG" "7" "8" "note" (some 9) stEx).server_metrics.monthly_summary.last_reset =
      stEx.server_metrics.monthly_summary.last_reset :=
  flag_action_frame_effect ⟨2025, 1, 2⟩ 10 "7" "8" "note" "FLAG" "7" "8" "note"
    (some 9) stEx (by decide)

/-- Key-string bridge: the MUTE counter key assembled by the code. -/
theorem monthly_update_MUTE (today : Date) (ms : MonthlySummary) :
    monthly_update_of today "MUTE" none ms =
      update_monthly_metric today "total_mutes" ms := rfl

/-- Key-string bridge: the BAN counter key assembled by the code. -/
theorem monthly_update_BAN (today : Date) (ms : MonthlySummary) :
    monthly_update_of today "BAN" none ms =
      update_monthly_metric today "total_bans" ms := rfl

/-- Key-string bridge: the KICK counter key assembled by the code. -/
theorem monthly_update_KICK (today : Date) (ms : MonthlySummary) :
    monthly_update_of today "KICK" none ms =
      update_monthly_metric today "total_kicks" ms := rfl

/-- When the month number changed, the update acts on the freshly reset summary. -/
theorem update_monthly_metric_rollover (today : Date) (key : String)
    (ms : MonthlySummary) (hm : today.month ≠ ms.last_reset.month) :
    update_monthly_metric today key ms = incKey (resetSummary today) key := by
  unfold update_monthly_metric
  rw [if_neg hm]

/-- The monthly summary seen through `monthly_after` is the metrics update. -/
theorem monthly_after_eq (today : Date) (now : Nat) (action tid mid r : String)
    (st : EngineState) :
    monthly_after today now action tid mid r st =
      monthly_update_of today action none st.server_metrics.monthly_summary := rfl

/-- Claim C3 (corrected): when the current month number differs from
`last_reset`'s month number, the next punitive `record_action` resets all three
counters to zero, increments exactly the recorded one, and sets `last_reset` to
the current date. The code compares month numbers only, not full calendar
months; see the counterexample for a prior calendar month with an equal month
number. -/
theorem monthly_rollover_on_month_number_change (today : Date) (now : Nat)
    (action tid mid r : String) (st : EngineState)
    (hmem : action ∈ punitive_actions)
    (hmonth : today.month ≠ st.server_metrics.monthly_summary.last_reset.month) :
    (action = "MUTE" → monthly_after today now action tid mid r st =
      { total_mutes := 1, total_bans := 0, total_kicks := 0, last_reset := today,
        member_count_at_action := none }) ∧
    (action = "BAN" → monthly_after today now action tid mid r st =
      { total_mutes := 0, total_bans := 1, total_kicks := 0, last_reset := today,
        member_count_at_action := none }) ∧
    (action = "KICK" → monthly_after today now action tid mid r st =
      { total_mutes := 0, total_bans := 0, total_kicks := 1, last_reset := today,
        member_count_at_action := none }) ∧
    (monthly_after today now action tid mid r st).last_reset = today := by
  have hcases : action = "MUTE" ∨ action = "BAN" ∨ action = "KICK" := by
    simpa [punitive_actions] using hmem
  rcases hcases with h | h | h <;> subst h
  · have key : monthly_after today now "MUTE" tid mid r st =
        { total_mutes := 1, total_bans := 0, total_kicks := 0, last_reset := today,
          member_count_at_action := none } := by
      rw [monthly_after_eq, monthly_update_MUTE,
        update_monthly_metric_rollover today "total_mutes" _ hmonth]
      rfl
    exact ⟨fun _ => key, fun hc => absurd hc (by decide),
      fun hc => absurd hc (by decide), by rw [key]⟩
  · have key : monthly_after today now "BAN" tid mid r st =
        { total_mutes := 0, total_bans := 1, total_kicks := 0, last_reset := today,
          member_count_at_action := none } := by
      rw [monthly_after_eq, monthly_update_BAN,
        update_monthly_metric_rollover today "total_bans" _ hmonth]
      rfl
    exact ⟨fun hc => absurd hc (by decide), fun _ => key,
      fun hc => absurd hc (by decide), by rw [key]⟩
  · have key : monthly_after today now "KICK" tid mid r st =
        { total_mutes := 0, total_bans := 0, total_kicks := 1, last_reset := today,
          member_count_at_action := none } := by
      rw [monthly_after_eq, monthly_update_KICK,
        update_monthly_metric_rollover today "total_kicks" _ hmonth]
      rfl
    exact ⟨fun hc => absurd hc (by decide), fun hc => absurd hc (by decide),
      fun _ => key, by rw [key]⟩

/-- Witness of claim C3 (amended form) at a concrete input: `last_reset` in the
previous month of the same year. -/
theorem monthly_rollover_on_month_number_change_instance :
    ("BAN" = "MUTE" → monthly_after ⟨2025, 2, 1⟩ 10 "BAN" "7" "8" "r" stEx =
      { total_mutes := 1, total_bans := 0, total_kicks := 0, last_reset := ⟨2025, 2, 1⟩,
        member_count_at_action := none }) ∧
    ("BAN" = "BAN" → monthly_after ⟨2025, 2, 1⟩ 10 "BAN" "7" "8" "r" stEx =
      { total_mutes := 0, total_bans := 1, total_kicks := 0, last_reset := ⟨2025, 2, 1⟩,
        member_count_at_action := none }) ∧
    ("BAN" = "KICK" → monthly_after ⟨2025, 2, 1⟩ 10 "BAN" "7" "8" "r" stEx =
      { total_mutes := 0, total_bans := 0, total_kicks := 1, last_reset := ⟨2025, 2, 1⟩,
        member_count_at_action := none }) ∧
    (monthly_after ⟨2025, 2, 1⟩ 10 "BAN" "7" "8" "r" stEx).last_reset = ⟨2025, 2, 1⟩ :=
  monthly_rollover_on_month_number_change ⟨2025, 2, 1⟩ 10 "BAN" "7" "8" "r" stEx
    (by decide) (by decide)

/-- Counterexample to claim C3 as stated: `last_reset` of October 2024 lies in a
prior calendar month of today (October 2025), yet the next recorded BAN does not
reset the counters and does not update `last_reset`, because the code compares
month numbers only. -/
theorem monthly_rollover_skipped_same_month_prior_year :
    priorCalendarMonth ⟨2025, 10, 12⟩ stC3.server_metrics.monthly_summary.last_reset ∧
    monthly_after ⟨2025, 10, 12⟩ 500 "BAN" "42" "1" "reason" stC3 =
      { total_mutes := 2, total_bans := 2, total_kicks := 3,
        last_reset := ⟨2024, 10, 5⟩, member_count_at_action := none } := by
  decide

/-- A banned member's join with a succeeding platform call: the handler issues
the re-ban (plus the optional alert) and leaves the metrics untouched. -/
theorem on_member_join_banned_ok (logs : List LogEntry) (memberId : String)
    (now : Nat) (alertC welcomeC : Bool) (metrics : ServerMetrics)
    (hban : is_banned logs memberId = true) :
    on_member_join logs memberId now true alertC welcomeC metrics =
      (JoinEffect.reBan memberId ::
        (if alertC then [JoinEffect.alertNotify] else []), metrics) := by
  simp [on_member_join, hban]

/-- Redelivered joins of a banned member never change the metrics. -/
theorem join_deliveries_banned (logs : List LogEntry) (memberId : String)
    (ds : List (Nat × Bool × Bool)) (metrics : ServerMetrics)
    (hban : is_banned logs memberId = true) :
    join_deliveries logs memberId ds metrics = metrics := by
  induction ds generalizing metrics with
  | nil => rfl
  | cons d ds ih =>
    have hstep : join_deliveries logs memberId (d :: ds) metrics =
        join_deliveries logs memberId ds
          ((on_member_join logs memberId d.1 true d.2.1 d.2.2 metrics).2) := rfl
    rw [hstep, on_member_join_banned_ok logs memberId d.1 d.2.1 d.2.2 metrics hban]
    exact ih metrics

/-- Claim C1 (corrected): for a ledger containing a BAN record for the subject,
a join event whose re-ban platform call succeeds issues a re-ban effect and
appends no join timestamp, and this holds across any number of redeliveries.
When the platform call fails the handler falls through and does record the
join; see the counterexample. -/
theorem ban_evasion_reban_and_no_join_metric (logs : List LogEntry)
    (memberId : String) (now : Nat) (alertC welcomeC : Bool)
    (metrics : ServerMetrics) (ds : List (Nat × Bool × Bool))
    (hban : is_banned logs memberId = true) :
    JoinEffect.reBan memberId ∈
      (on_member_join logs memberId now true alertC welcomeC metrics).1 ∧
    (on_member_join logs memberId now true alertC welcomeC metrics).2.members_joined =
      metrics.members_joined ∧
    (join_deliveries logs memberId ds metrics).members_joined =
      metrics.members_joined := by
  rw [on_member_join_banned_ok logs memberId now alertC welcomeC metrics hban,
    join_deliveries_banned logs memberId ds metrics hban]
  exact ⟨List.mem_cons_self _ _, rfl, rfl⟩

/-- Witness of claim C1 (amended form) at a concrete input, with a redelivery. -/
theorem ban_evasion_reban_and_no_join_metric_instance :
    JoinEffect.reBan "42" ∈
      (on_member_join logsBanned "42" 100 true true true mEx).1 ∧
    (on_member_join logsBanned "42" 100 true true true mEx).2.members_joined =
      mEx.members_joined ∧
    (join_deliveries logsBanned "42" [(100, true, true), (101, false, true)]
        mEx).members_joined = mEx.members_joined :=
  ban_evasion_reban_and_no_join_metric logsBanned "42" 100 true true mEx
    [(100, true, true), (101, false, true)] (by decide)

/-- Counterexample to claim C1 as stated: with a BAN record present but the
platform rejecting the re-ban call, the handler records the join timestamp and
issues no re-ban effect. -/
theorem ban_evasion_join_metric_on_failed_reban :
    is_banned logsBanned "42" = true ∧
    (on_member_join logsBanned "42" 100 false true true mEx).2.members_joined =
      [100] ∧
    JoinEffect.reBan "42" ∉ (on_member_join logsBanned "42" 100 false true true mEx).1 := by
  decide

/-- Content that matches the denylist is non-empty, since every denylist entry
is non-empty. -/
theorem matches_denylist_ne_empty {content : String}
    (h : matches_denylist content = true) : (content == "") = false := by
  cases hc : content == "" with
  | false => rfl
  | true =>
    have hce : content = "" := by simpa using hc
    rw [hce] at h
    exact absurd h (by decide)

/-- Claim C6 (corrected): a non-bot message matching the denylist from an
author without the moderation permission, when the platform permits the
deletion, is deleted with a 5-second transient warning and command dispatch
never runs. When the deletion is forbidden the handler falls through to
dispatch; see the counterexample. -/
theorem content_filter_deletes_and_short_circuits (msg : MessageEvent)
    (chatters : List String) (activity : List (Nat × Nat))
    (hbot : msg.authorIsBot = false) (hmatch : matches_denylist msg.content = true)
    (hpriv : msg.authorCanManageMessages = false) :
    (on_message true msg chatters activity).2.2 =
      [MsgEffect.deleteMessage, MsgEffect.sendFilterNotice, MsgEffect.waitSeconds 5,
        MsgEffect.deleteNotice] ∧
    MsgEffect.dispatchCommands ∉ (on_message true msg chatters activity).2.2 := by
  have hc := matches_denylist_ne_empty hmatch
  have heq : (on_message true msg chatters activity).2.2 =
      [MsgEffect.deleteMessage, MsgEffect.sendFilterNotice, MsgEffect.waitSeconds 5,
        MsgEffect.deleteNotice] := by
    simp [on_message, hbot, hc, hmatch, hpriv]
  rw [heq]
  exact ⟨rfl, by decide⟩

/-- Witness of claim C6 (amended form) at a concrete message. -/
theorem content_filter_deletes_and_short_circuits_instance :
    (on_message true msgFiltered [] []).2.2 =
      [MsgEffect.deleteMessage, MsgEffect.sendFilterNotice, MsgEffect.waitSeconds 5,
        MsgEffect.deleteNotice] ∧
    MsgEffect.dispatchCommands ∉ (on_message true msgFiltered [] []).2.2 :=
  content_filter_deletes_and_short_circuits msgFiltered [] [] rfl (by decide) rfl

/-- Counterexample to claim C6 as stated: the same denylist-matching message
from an unprivileged author, with the platform forbidding the deletion, is not
deleted and command dispatch does run. -/
theorem content_filter_dispatch_on_forbidden_delete :
    matches_denylist msgFiltered.content = true ∧
    msgFiltered.authorCanManageMessages = false ∧
    (on_message false msgFiltered [] []).2.2 = [MsgEffect.dispatchCommands] ∧
    MsgEffect.deleteMessage ∉ (on_message false msgFiltered [] []).2.2 := by
  decide

/-- Claim C7 (confirmed): the churn rate is `0` whenever the joined count of the
window is zero, whatever the left count; otherwise it is
`left / joined * 100`. -/
theorem churn_rate_zero_division_policy (metrics : ServerMetrics) (cutoff : Nat) :
    (joined_in_window metrics.members_joined cutoff = 0 →
      churn_rate metrics cutoff = 0) ∧
    (joined_in_window metrics.members_joined cutoff ≠ 0 →
      churn_rate metrics cutoff =
        (joined_in_window metrics.members_left cutoff : ℚ) /
          (joined_in_window metrics.members_joined cutoff : ℚ) * 100) := by
  constructor
  · intro h
    simp [churn_rate, h]
  · intro h
    have hpos : 0 < joined_in_window metrics.members_joined cutoff :=
      Nat.pos_of_ne_zero h
    simp [churn_rate, hpos]

/-- Witness of claim C7 at concrete inputs: an empty window with two leaves
gives `0`, and a window of three joins and one leave gives `1/3 * 100`. -/
theorem churn_rate_zero_division_policy_instance :
    churn_rate mEx 5 = 0 ∧
    churn_rate mJoinedSome 5 = (1 : ℚ) / (3 : ℚ) * 100 := by
  constructor
  · exact (churn_rate_zero_division_policy mEx 5).1 (by decide)
  · have h := (churn_rate_zero_division_policy mJoinedSome 5).2 (by decide)
    have h1 : joined_in_window mJoinedSome.members_left 5 = 1 := by decide
    have h2 : joined_in_window mJoinedSome.members_joined 5 = 3 := by decide
    rw [h, h1, h2]
    norm_num

/-- Claim C2 (corrected): the dashboard search returns, in ledger order, exactly
the records whose `target_username` field contains the query case-insensitively
or whose `target_id` equals the query exactly. The claim's criteria (subject
identity, reason, action kind substring match) are refuted by the
counterexample. -/
theorem search_ledger_matches_username_or_exact_id (logs : List LogEntry)
    (q : String) :
    List.Sublist (search_ledger logs q) logs ∧
    search_ledger logs q = logs.filter (matches_dashboard q) ∧
    ∀ e : LogEntry, e ∈ search_ledger logs q ↔
      e ∈ logs ∧ matches_dashboard q e = true := by
  refine ⟨List.filter_sublist logs, rfl, fun e => ?_⟩
  simp [search_ledger, List.mem_filter, matches_dashboard]

/-- Counterexample to claim C2 as stated: a record whose reason text contains
`"spam"` is returned by the spec-side search but not by the code's search. -/
theorem search_ledger_misses_reason_match :
    search_ledger_specside [logC2] "spam" = [logC2] ∧
    search_ledger [logC2] "spam" = [] ∧
    search_ledger [logC2] "spam" ≠ search_ledger_specside [logC2] "spam" := by
  decide

/-- Inserting an element satisfying `p` into a list whose `p`-elements it ties
places it in front of all of them. -/
theorem filter_orderedInsert_pos (p : ChannelStat → Bool) (x : ChannelStat)
    (hx : p x = true) :
    ∀ l : List ChannelStat, (∀ b ∈ l, p b = true → countGE x b) →
      (l.orderedInsert countGE x).filter p = x :: l.filter p := by
  intro l
  induction l with
  | nil =>
    intro _
    simp [List.orderedInsert, hx]
  | cons b l ih =>
    intro h
    by_cases hr : countGE x b
    · simp [List.orderedInsert, hr, List.filter_cons, hx]
    · have hpb : p b = false := by
        cases hpb : p b with
        | false => rfl
        | true => exact absurd (h b (List.mem_cons_self b l) hpb) hr
      have hrec := ih (fun c hc hpc => h c (List.mem_cons_of_mem b hc) hpc)
      simp [List.orderedInsert, hr, List.filter_cons, hpb, hrec]

/-- Inserting an element not satisfying `p` does not change the `p`-filter. -/
theorem filter_orderedInsert_neg (p : ChannelStat → Bool) (x : ChannelStat)
    (hx : p x = false) (l : List ChannelStat) :
    (l.orderedInsert countGE x).filter p = l.filter p := by
  induction l with
  | nil => simp [List.orderedInsert, hx]
  | cons b l ih =>
    by_cases hr : countGE x b
    · simp [List.orderedInsert, hr, List.filter_cons, hx]
    · simp [List.orderedInsert, hr, List.filter_cons, ih]

/-- Stability of the code's sort: restricting the sorted channel list to one
count value gives back the input's entries with that count, in input order. -/
theorem insertionSort_filter_count (c : Nat) (m : List ChannelStat) :
    (List.insertionSort countGE m).filter (fun a => a.count == c) =
      m.filter (fun a => a.count == c) := by
  induction m with
  | nil => rfl
  | cons x m ih =>
    by_cases hx : x.count = c
    · have hpos := filter_orderedInsert_pos (fun a => a.count == c) x
        (by simp [hx]) (List.insertionSort countGE m)
        (fun b _ hpb => by
          have hb : b.count = c := by simpa using hpb
          show b.count ≤ x.count
          rw [hb, hx])
      simp only [List.insertionSort, hpos, ih, List.filter_cons]
      simp [hx]
    · have hneg := filter_orderedInsert_neg (fun a => a.count == c) x
        (by simp [hx]) (List.insertionSort countGE m)
      simp only [List.insertionSort, hneg, ih, List.filter_cons]
      simp [hx]

/-- Claim C8 (corrected): `top_channels n` is the first `n` entries of the
stable descending-by-count sort of the mapping: sorted, a permutation of the
input, and with ties kept in the mapping's insertion order (not channel
identity order — see the counterexample). The spec's concrete example
A(5), B(12), C(1) gives [B(12), A(5)] for n = 2. -/
theorem top_channels_sorted_stable_take (m : List ChannelStat) (n : Nat) :
    top_channels m n = (List.insertionSort countGE m).take n ∧
    (List.insertionSort countGE m).Sorted countGE ∧
    (List.insertionSort countGE m).Perm m ∧
    (∀ c : Nat, (List.insertionSort countGE m).filter (fun a => a.count == c) =
        m.filter (fun a => a.count == c)) ∧
    top_channels [⟨1, 5⟩, ⟨2, 12⟩, ⟨3, 1⟩] 2 = [⟨2, 12⟩, ⟨1, 5⟩] :=
  ⟨rfl, List.sorted_insertionSort countGE m, List.perm_insertionSort countGE m,
    fun c => insertionSort_filter_count c m, by decide⟩

/-- Counterexample to claim C8 as stated: two channels tied at count 5 and
stored in insertion order id 2 before id 1 are returned in that insertion
order, not in channel identity order. -/
theorem top_channels_tie_break_not_identity_order :
    top_channels [⟨2, 5⟩, ⟨1, 5⟩] 2 = [⟨2, 5⟩, ⟨1, 5⟩] ∧
    top_channels_specside [⟨2, 5⟩, ⟨1, 5⟩] 2 = [⟨1, 5⟩, ⟨2, 5⟩] ∧
    top_channels [⟨2, 5⟩, ⟨1, 5⟩] 2 ≠ top_channels_specside [⟨2, 5⟩, ⟨1, 5⟩] 2 := by
  decide

/-- Claim C9 (confirmed): the credential check rejects every pair unless both
environment credentials are configured (set and non-empty) and the supplied
pair equals them exactly; in particular an unconfigured credential means no
pair is ever accepted. -/
theorem verify_password_fails_closed (envUser envPass : Option String)
    (username password : String)
    (h : strTruthy envUser = false ∨ strTruthy envPass = false ∨
      envUser ≠ some username ∨ envPass ≠ some password) :
    verify_password envUser (admin_pass_hashed envPass) username password = none := by
  rcases h with h | h | h | h
  · simp [verify_password, h]
  · cases envPass with
    | none => simp [verify_password, admin_pass_hashed, strTruthy]
    | some s =>
      have hs : s = "" := by simpa [strTruthy] using h
      subst hs
      simp [verify_password, admin_pass_hashed, strTruthy]
  · cases envUser with
    | none => simp [verify_password, strTruthy]
    | some u =>
      have hu : username ≠ u := fun he => h (by rw [he])
      simp [verify_password, hu]
  · cases envPass with
    | none => simp [verify_password, admin_pass_hashed, strTruthy]
    | some p =>
      have hp : p ≠ password := fun he => h (by rw [he])
      by_cases hpe : p = ""
      · subst hpe
        simp [verify_password, admin_pass_hashed, strTruthy]
      · simp [verify_password, admin_pass_hashed, generate_password_hash,
          check_password_hash, hpe, hp]

/-- Witness of claim C9 at a concrete input: the user credential is
unconfigured, so even the correct password is rejected. -/
theorem verify_password_fails_closed_instance :
    verify_password none (admin_pass_hashed (some "hunter2")) "root" "hunter2" = none :=
  verify_password_fails_closed none (some "hunter2") "root" "hunter2" (Or.inl rfl)

end Aura
